import Mathlib

/-! WarpNet thin client: session and facade.

A shallow embedding of `native/warpnet-client/client.go` (the client session
`WarpNetClient`) and `native/warpnet-client/mobile.go` (the string facade built
around the package variable `clientInstance`), with the properties of the
session state machine and of the facade guards proved about it.

Conventions of the embedding.

* A Go `error` is its message: `Option String`, `none` being `nil`; a Go
  `(value, error)` pair whose value is `nil` on every error path is an
  `Except String value`.
* The libp2p host is an external collaborator.  Its state is the record of
  the operations it carried out for the session (`Host.log`) and whether it
  has been shut down; what the network answers to a call is an explicit
  argument of the operation that makes the call.
* A Go `string` that is inspected byte by byte (the base64 text handed to
  `Initialize`) is a list of bytes; strings that are only passed around or
  produced as messages are Lean strings.
-/

namespace WarpNet

/-! ## Bytes and standard base64 (`encoding/base64`, `StdEncoding`) -/

/-- One octet. -/
abbrev Byte := Fin 256

/-- Go conversion `byte(n)`: keeps the low eight bits. -/
def toByte (n : Nat) : Byte := ⟨n % 256, Nat.mod_lt n (by decide)⟩

/-- The padding character `=` of the standard encoding. -/
def padChar : Byte := 61

/-- The standard alphabet `A-Z a-z 0-9 + /`, as a map from a six-bit value to
its character. -/
def encodeStd (i : Nat) : Byte :=
  if i < 26 then toByte (65 + i)
  else if i < 52 then toByte (71 + i)
  else if i < 62 then toByte (i - 4)
  else if i = 62 then 43
  else 47

/-- The decode map of the standard alphabet; `none` stands for the `0xff`
entries of Go's table (not a character of the alphabet). -/
def decodeMap (b : Byte) : Option Nat :=
  if 65 ≤ b.val ∧ b.val ≤ 90 then some (b.val - 65)
  else if 97 ≤ b.val ∧ b.val ≤ 122 then some (b.val - 71)
  else if 48 ≤ b.val ∧ b.val ≤ 57 then some (b.val + 4)
  else if b.val = 43 then some 62
  else if b.val = 47 then some 63
  else none

/-- The four characters of one full three-byte group. -/
def encodeGroup (b0 b1 b2 : Nat) : List Byte :=
  let val := b0 * 65536 + b1 * 256 + b2
  [encodeStd (val / 262144 % 64), encodeStd (val / 4096 % 64),
   encodeStd (val / 64 % 64), encodeStd (val % 64)]

/-- Go `base64.StdEncoding.EncodeToString`: full groups of three bytes, then
a padded group for a remainder of one or two bytes. -/
def EncodeToString : List Byte → List Byte
  | [] => []
  | [b0] =>
      let val := b0.val * 65536
      [encodeStd (val / 262144 % 64), encodeStd (val / 4096 % 64), padChar, padChar]
  | [b0, b1] =>
      let val := b0.val * 65536 + b1.val * 256
      [encodeStd (val / 262144 % 64), encodeStd (val / 4096 % 64),
       encodeStd (val / 64 % 64), padChar]
  | b0 :: b1 :: b2 :: rest =>
      encodeGroup b0.val b1.val b2.val ++ EncodeToString rest

/-- The bytes a quantum yields: `dbuf` holds the six-bit values read so far
(missing ones count as zero), `dlen` how many were read; `dlen - 1` bytes come
out. -/
def quantumBytes (dbuf : List Nat) (dlen : Nat) : List Byte :=
  let val := dbuf.getD 0 0 * 262144 + dbuf.getD 1 0 * 4096 + dbuf.getD 2 0 * 64 + dbuf.getD 3 0
  ([toByte (val / 65536), toByte (val / 256), toByte val]).take (dlen - 1)

/-- Is the byte a line feed or a carriage return (skipped by the decoder). -/
def isNewline (b : Byte) : Bool := b.val = 10 || b.val = 13

/-- The loop `for si < len(src) && (src[si] == '\n' || src[si] == '\r') { si++ }`. -/
def skipNewlines : List Byte → Nat → List Byte × Nat
  | [], si => ([], si)
  | b :: rest, si => if isNewline b then skipNewlines rest (si + 1) else (b :: rest, si)

/-- End of a padded quantum: skip newlines, report trailing garbage, emit the
bytes of the quantum. -/
def padTail (dbuf : List Nat) (j : Nat) (rest : List Byte) (si : Nat) (out : List Byte) :
    List Byte × Option Nat :=
  match skipNewlines rest si with
  | ([], _) => (out ++ quantumBytes dbuf j, none)
  | (_ :: _, si1) => (out ++ quantumBytes dbuf j, some si1)

/-- Go `Encoding.Decode` with `decodeQuantum` for the standard, non-strict,
padded encoding, as one loop over the remaining input.  `j` and `dbuf` are the
loop variables of `decodeQuantum`, `si` the index of the next input byte and
`out` the bytes decoded so far; when `j` reaches four the quantum is emitted
and the next one starts.  The result is the pair `(dbuf[:n], err)` of
`DecodeString`, the error being the offset of a `CorruptInputError`. -/
def decodeFrom : Nat → List Nat → List Byte → Nat → List Byte → List Byte × Option Nat
  | j, _, [], si, out => if j = 0 then (out, none) else (out, some (si - j))
  | j, dbuf, b :: rest, si, out =>
      match decodeMap b with
      | some d =>
          if j = 3 then decodeFrom 0 [] rest (si + 1) (out ++ quantumBytes (dbuf ++ [d]) 4)
          else decodeFrom (j + 1) (dbuf ++ [d]) rest (si + 1) out
      | none =>
          if isNewline b then decodeFrom j dbuf rest (si + 1) out
          else if b ≠ padChar then (out, some si)
          else if j = 0 ∨ j = 1 then (out, some si)
          else if j = 2 then
            match skipNewlines rest (si + 1) with
            | ([], si1) => (out, some si1)
            | (b1 :: rest2, si1) =>
                if b1 ≠ padChar then (out, some (si1 - 1))
                else padTail dbuf j rest2 (si1 + 1) out
          else padTail dbuf j rest (si + 1) out

/-- Go `base64.StdEncoding.DecodeString`: the decoded bytes and, on corrupt
input, the offset carried by the `CorruptInputError`. -/
def DecodeString (s : List Byte) : List Byte × Option Nat :=
  decodeFrom 0 [] s 0 []

/-- The message of `base64.CorruptInputError`. -/
def corruptInputError (offset : Nat) : String :=
  "illegal base64 data at input byte " ++ toString offset

/-- The bytes of an ASCII string literal. -/
def bytesOf (s : String) : List Byte := s.toList.map fun c => toByte c.toNat

/-- Go `[]byte(s)` for a message string: its UTF-8 bytes. -/
def stringBytes (s : String) : List Byte := s.toUTF8.toList.map fun u => u.val

/-! ## The network stack adapter (libp2p host), seen from the session -/

/-- A call the session makes on its libp2p host that can change the host.
A stream is named by the position of its `newStream` entry in the log. -/
inductive HostCall where
  /-- Call `host.Peerstore().AddAddr(pid, maddr, peerstore.PermanentAddrTTL)`. -/
  | peerstoreAddAddr (pid maddr : String)
  /-- Call `host.Connect(ctx, peer.AddrInfo{ID: pid})`. -/
  | connect (pid : String)
  /-- Call `host.NewStream(ctx, pid, protocol.ID(protocolID))`; `opened` tells
  whether a stream came back. -/
  | newStream (pid protocolID : String) (opened : Bool)
  /-- Call `stream.SetDeadline(...)`. -/
  | streamSetDeadline (stream : Nat)
  /-- Call `stream.Write(data)`. -/
  | streamWrite (stream : Nat) (data : List Byte)
  /-- Call `stream.CloseWrite()`. -/
  | streamCloseWrite (stream : Nat)
  /-- Call `io.ReadAll(stream)`. -/
  | streamRead (stream : Nat)
  /-- Call `stream.Close()`. -/
  | streamClose (stream : Nat)
  /-- Call `host.Network().ClosePeer(pid)`. -/
  | closePeer (pid : String)
  /-- The shutdown carried out by `host.Close()`. -/
  | close
  deriving DecidableEq

/-- The libp2p host owned by a session: its own peer identifier, the
operations it has carried out for the session so far, oldest first, and
whether it has been shut down. -/
structure Host where
  id : String
  log : List HostCall
  closed : Bool
  deriving DecidableEq

/-- Record one call on the host. -/
def Host.call (h : Host) (e : HostCall) : Host := { h with log := h.log ++ [e] }

/-- Modelled from the spec: the address book of the adapter, which is libp2p
code outside this repository (`addKnownAddress(peerId, address, ttl)` "records
an address hint", and addresses "are remembered with unlimited (permanent)
validity once learned").  An address is known for a peer once it has been
recorded for that peer with the permanent TTL; order and repetition of the
records play no part. -/
def Host.knowsAddr (h : Host) (pid addr : String) : Bool :=
  decide (HostCall.peerstoreAddAddr pid addr ∈ h.log)

/-- Modelled from the spec: the shutdown of the adapter (`host.Close()`, libp2p
code outside this repository).  The host shuts down once: the first call
carries out the shutdown and returns its result `shutdown`; a call on a host
already shut down does nothing and returns `nil` ("repeated `Shutdown`/`Close`
calls are always safe no-ops after the first"; `TestClose` requires `nil` of
the second `Close`, which is this call and nothing else). -/
def Host.Close (h : Host) (shutdown : Option String) : Host × Option String :=
  if h.closed then (h, none)
  else ({ h with log := h.log ++ [HostCall.close], closed := true }, shutdown)

/-- The streams open after a call: `NewStream` that succeeds opens the stream
named by its position, `Close` of a stream closes it. -/
def streamStep (streams : List Nat) (i : Nat) : HostCall → List Nat
  | .newStream _ _ true => streams ++ [i]
  | .streamClose s => streams.filter fun x => x ≠ s
  | _ => streams

/-- The streams left open by a log whose first entry has position `i`,
starting from the open streams `streams`. -/
def openStreamsFrom : Nat → List Nat → List HostCall → List Nat
  | _, streams, [] => streams
  | i, streams, e :: rest => openStreamsFrom (i + 1) (streamStep streams i e) rest

/-- The streams of the host that were opened and not closed. -/
def Host.openStreams (h : Host) : List Nat := openStreamsFrom 0 [] h.log

/-- The values of libp2p `network.Connectedness`. -/
inductive Connectedness where
  | NotConnected | Connected | CanConnect | CannotConnect | Limited
  deriving DecidableEq

/-- The identifier and address grammar of the substrate: `peer.Decode` and
`multiaddr.NewMultiaddr`, each giving the parsed value or an error message. -/
structure Substrate where
  peerDecode : String → Except String String
  newMultiaddr : String → Except String String

/-- What the network answers during one `SendMessage`: the error (if any) of
`NewStream`, of `Write`, of `CloseWrite`, and the result of `io.ReadAll`. -/
structure StreamEnv where
  newStream : Option String
  write : Option String
  closeWrite : Option String
  readAll : Except String (List Byte)

/-! ## The client session (`client.go`) -/

/-- The session `WarpNetClient`: the host, whether the session context was
cancelled, and the remembered peer (`""` for none). -/
structure WarpNetClient where
  host : Host
  cancelled : Bool
  desktopID : String
  deriving DecidableEq

/-- An option handed to `libp2p.New`. -/
inductive Libp2pOption where
  | Identity (privKey : List Byte)
  | NoListenAddrs
  | DisableMetrics
  | DisableRelay
  | Ping (enable : Bool)
  | SecurityNoise
  | TransportTCP
  | UserAgent (agent : String)
  | DisableIdentifyAddressDiscovery
  | PrivateNetwork (psk : List Byte)
  deriving DecidableEq

/-- What construction depends on: the result of
`crypto.GenerateKeyPairWithReader(crypto.Ed25519, -1, rand.Reader)` and of
`libp2p.New(opts...)` (the identifier of the new host, or an error). -/
structure ConstructEnv where
  generateKeyPair : Except String (List Byte)
  libp2pNew : List Libp2pOption → Except String String

/-- Go `NewClient(psk)`; `none` is the `nil` slice. -/
def NewClient (env : ConstructEnv) (psk : Option (List Byte)) : Except String WarpNetClient :=
  match env.generateKeyPair with
  | .error e => .error ("failed to generate key pair: " ++ e)
  | .ok privKey =>
      let opts : List Libp2pOption :=
        [.Identity privKey, .NoListenAddrs, .DisableMetrics, .DisableRelay, .Ping true,
         .SecurityNoise, .TransportTCP, .UserAgent "warpnet-android/1.0",
         .DisableIdentifyAddressDiscovery]
      let withPSK : Except String (List Libp2pOption) :=
        match psk with
        | some key =>
            if key.length = 32 then .ok (opts ++ [.PrivateNetwork key])
            else .error ("PSK must be exactly 32 bytes, got " ++ toString key.length ++ " bytes")
        | none => .ok opts
      match withPSK with
      | .error e => .error e
      | .ok allOpts =>
          match env.libp2pNew allOpts with
          | .error e => .error ("failed to create libp2p host: " ++ e)
          | .ok hostID =>
              .ok { host := { id := hostID, log := [], closed := false }, cancelled := false,
                    desktopID := "" }

/-- Go `(*WarpNetClient).Connect`; `dial` is the error (if any) of
`host.Connect`. -/
def Connect (lib : Substrate) (c : WarpNetClient) (peerIDStr addrStr : String)
    (dial : Option String) : WarpNetClient × Option String :=
  match lib.peerDecode peerIDStr with
  | .error e => (c, some ("invalid peer ID: " ++ e))
  | .ok pid =>
      match lib.newMultiaddr addrStr with
      | .error e => (c, some ("invalid multiaddr: " ++ e))
      | .ok maddr =>
          let h := (c.host.call (.peerstoreAddAddr pid maddr)).call (.connect pid)
          match dial with
          | some e => ({ c with host := h }, some ("connection failed: " ++ e))
          | none => ({ c with host := h, desktopID := pid }, none)

/-- The body of `SendMessage` after `defer stream.Close()`: deadline, write,
half-close, read. -/
def exchange (h : Host) (stream : Nat) (data : List Byte) (net : StreamEnv) :
    Host × Except String (List Byte) :=
  let h1 := (h.call (.streamSetDeadline stream)).call (.streamWrite stream data)
  match net.write with
  | some e => (h1, .error ("failed to write data: " ++ e))
  | none =>
      let h2 := h1.call (.streamCloseWrite stream)
      match net.closeWrite with
      | some e => (h2, .error ("failed to close write: " ++ e))
      | none =>
          let h3 := h2.call (.streamRead stream)
          match net.readAll with
          | .error e => (h3, .error ("failed to read response: " ++ e))
          | .ok response => (h3, .ok response)

/-- Go `(*WarpNetClient).SendMessage`. -/
def SendMessage (c : WarpNetClient) (protocolID : String) (data : List Byte) (net : StreamEnv) :
    WarpNetClient × Except String (List Byte) :=
  let desktopID := c.desktopID
  if desktopID = "" then (c, .error "not connected to desktop node")
  else
    match net.newStream with
    | some e =>
        ({ c with host := c.host.call (.newStream desktopID protocolID false) },
          .error ("failed to open stream: " ++ e))
    | none =>
        let stream := c.host.log.length
        let r := exchange (c.host.call (.newStream desktopID protocolID true)) stream data net
        -- the deferred `stream.Close()` runs on every return of the body
        ({ c with host := r.1.call (.streamClose stream) }, r.2)

/-- Go `(*WarpNetClient).GetPeerID`. -/
def GetPeerID (c : WarpNetClient) : String := c.host.id

/-- Go `(*WarpNetClient).IsConnected`; `connectedness` is what
`host.Network().Connectedness` reports. -/
def IsConnected (c : WarpNetClient) (connectedness : String → Connectedness) : Bool :=
  if c.desktopID = "" then false
  else decide (connectedness c.desktopID = Connectedness.Connected)

/-- Go `(*WarpNetClient).Disconnect`; `closePeer` is the error (if any) of
`ClosePeer`. -/
def Disconnect (c : WarpNetClient) (closePeer : Option String) : WarpNetClient × Option String :=
  if c.desktopID ≠ "" then
    let h := c.host.call (.closePeer c.desktopID)
    match closePeer with
    | some e => ({ c with host := h }, some ("failed to close peer connection: " ++ e))
    | none => ({ c with host := h, desktopID := "" }, none)
  else (c, none)

/-- Go `(*WarpNetClient).Close`: `c.cancel()`, then `return c.host.Close()`;
`hostClose` is the error (if any) of the shutdown the host carries out. -/
def Close (c : WarpNetClient) (hostClose : Option String) : WarpNetClient × Option String :=
  let r := c.host.Close hostClose
  ({ c with cancelled := true, host := r.1 }, r.2)

/-- One operation of a caller on a session, with what the network answers. -/
inductive Op where
  | connect (peerIDStr addrStr : String) (dial : Option String)
  | sendMessage (protocolID : String) (data : List Byte) (net : StreamEnv)
  | isConnected (connectedness : String → Connectedness)
  | disconnect (closePeer : Option String)

/-- The session after one operation. -/
def Op.apply (lib : Substrate) (c : WarpNetClient) : Op → WarpNetClient
  | .connect p a dial => (Connect lib c p a dial).1
  | .sendMessage p d net => (SendMessage c p d net).1
  | .isConnected _ => c
  | .disconnect cp => (Disconnect c cp).1

/-- Is the operation a `Connect` that returns `nil` on this session. -/
def Op.connectSucceeds (lib : Substrate) (c : WarpNetClient) : Op → Bool
  | .connect p a dial => (Connect lib c p a dial).2.isNone
  | _ => false

/-- The session after a sequence of operations. -/
def runOps (lib : Substrate) : WarpNetClient → List Op → WarpNetClient
  | c, [] => c
  | c, op :: rest => runOps lib (op.apply lib c) rest

/-- No `Connect` of the sequence succeeds. -/
def noConnectSucceeds (lib : Substrate) : WarpNetClient → List Op → Bool
  | _, [] => true
  | c, op :: rest => !op.connectSucceeds lib c && noConnectSucceeds lib (op.apply lib c) rest

/-! ## The facade (`mobile.go`)

The package variable `clientInstance` is threaded through: every entry point
takes its value and returns the new value with the result string. -/

/-- What the facade needs from `encoding/json`: `marshalEntry key value` is
the text of `json.Marshal(map[string]string{key: value})`, the value being the
bytes of the Go string. -/
structure JSONLib where
  marshalEntry : String → List Byte → String

/-- Go `Initialize(pskBase64)`. -/
def Initialize (env : ConstructEnv) (clientInstance : Option WarpNetClient)
    (pskBase64 : List Byte) : Option WarpNetClient × String :=
  let decoded : Except String (Option (List Byte)) :=
    if pskBase64 ≠ [] then
      match DecodeString pskBase64 with
      | (_, some offset) => .error ("invalid PSK: " ++ corruptInputError offset)
      | (psk, none) =>
          if psk.length ≠ 32 then .error "PSK must be exactly 32 bytes" else .ok (some psk)
    else .ok none
  match decoded with
  | .error msg => (clientInstance, msg)
  | .ok psk =>
      match NewClient env psk with
      | .error e => (clientInstance, "failed to create client: " ++ e)
      | .ok client => (some client, "")

/-- Go `ConnectToNode(peerID, address)`. -/
def ConnectToNode (lib : Substrate) (clientInstance : Option WarpNetClient)
    (peerID address : String) (dial : Option String) : Option WarpNetClient × String :=
  match clientInstance with
  | none => (none, "client not initialized")
  | some c =>
      match Connect lib c peerID address dial with
      | (c1, some e) => (some c1, "connection failed: " ++ e)
      | (c1, none) => (some c1, "")

/-- Go `SendRequest(protocolID, dataJSON)`. -/
def SendRequest (json : JSONLib) (clientInstance : Option WarpNetClient)
    (protocolID : String) (dataJSON : List Byte) (net : StreamEnv) :
    Option WarpNetClient × String :=
  match clientInstance with
  | none => (none, "\x7b\"error\": \"client not initialized\"\x7d")
  | some c =>
      match SendMessage c protocolID dataJSON net with
      | (c1, .error e) => (some c1, json.marshalEntry "error" (stringBytes e))
      | (c1, .ok response) => (some c1, json.marshalEntry "data" response)

/-- Go `GetClientPeerID()`. -/
def GetClientPeerID (clientInstance : Option WarpNetClient) : String :=
  match clientInstance with
  | none => ""
  | some c => GetPeerID c

/-- Go `CheckConnection()`. -/
def CheckConnection (clientInstance : Option WarpNetClient)
    (connectedness : String → Connectedness) : String :=
  match clientInstance with
  | none => "false"
  | some c => if IsConnected c connectedness then "true" else "false"

/-- Go `DisconnectFromNode()`. -/
def DisconnectFromNode (clientInstance : Option WarpNetClient) (closePeer : Option String) :
    Option WarpNetClient × String :=
  match clientInstance with
  | none => (none, "")
  | some c =>
      match Disconnect c closePeer with
      | (c1, some e) => (some c1, "disconnect failed: " ++ e)
      | (c1, none) => (some c1, "")

/-- Go `Shutdown()`. -/
def Shutdown (clientInstance : Option WarpNetClient) (hostClose : Option String) :
    Option WarpNetClient × String :=
  match clientInstance with
  | none => (none, "")
  | some c =>
      match Close c hostClose with
      | (c1, some e) => (some c1, "shutdown failed: " ++ e)
      | (_, none) => (none, "")

/-! ## Reading a flat JSON object

The reader used to state what a facade result "parses as": a JSON object
whose members are strings, as `json.Unmarshal` into a `map[string]string`
reads it.  It accepts a subset of JSON (no `\u` escapes). -/

/-- Where the reader is in the text. -/
inductive ReadState where
  | beforeObject
  | beforeKey (acc : List (String × String)) (mayClose : Bool)
  | inKey (acc : List (String × String)) (key : List Char) (escaped : Bool)
  | afterKey (acc : List (String × String)) (key : String)
  | beforeValue (acc : List (String × String)) (key : String)
  | inValue (acc : List (String × String)) (key : String) (value : List Char) (escaped : Bool)
  | afterValue (acc : List (String × String))
  | afterObject (acc : List (String × String))

/-- JSON insignificant whitespace. -/
def isJSONSpace (ch : Char) : Bool := ch = ' ' || ch = '\t' || ch = '\n' || ch = '\r'

/-- The character an escape `\ch` stands for. -/
def unescape (ch : Char) : Option Char :=
  if ch = '"' then some '"'
  else if ch = '\\' then some '\\'
  else if ch = '/' then some '/'
  else if ch = 'n' then some '\n'
  else if ch = 'r' then some '\r'
  else if ch = 't' then some '\t'
  else if ch = 'b' then some (Char.ofNat 8)
  else if ch = 'f' then some (Char.ofNat 12)
  else none

/-- Read the text from a state; the members of the object in order, or
`none` when the text is not an object of strings. -/
def readObject : ReadState → List Char → Option (List (String × String))
  | .afterObject acc, [] => some acc
  | _, [] => none
  | .beforeObject, ch :: rest =>
      if isJSONSpace ch then readObject .beforeObject rest
      else if ch = '\x7b' then readObject (.beforeKey [] true) rest
      else none
  | .beforeKey acc mayClose, ch :: rest =>
      if isJSONSpace ch then readObject (.beforeKey acc mayClose) rest
      else if ch = '"' then readObject (.inKey acc [] false) rest
      else if ch = '\x7d' ∧ mayClose = true then readObject (.afterObject acc) rest
      else none
  | .inKey acc key true, ch :: rest =>
      match unescape ch with
      | some u => readObject (.inKey acc (key ++ [u]) false) rest
      | none => none
  | .inKey acc key false, ch :: rest =>
      if ch = '\\' then readObject (.inKey acc key true) rest
      else if ch = '"' then readObject (.afterKey acc (String.mk key)) rest
      else if ch.toNat < 32 then none
      else readObject (.inKey acc (key ++ [ch]) false) rest
  | .afterKey acc key, ch :: rest =>
      if isJSONSpace ch then readObject (.afterKey acc key) rest
      else if ch = ':' then readObject (.beforeValue acc key) rest
      else none
  | .beforeValue acc key, ch :: rest =>
      if isJSONSpace ch then readObject (.beforeValue acc key) rest
      else if ch = '"' then readObject (.inValue acc key [] false) rest
      else none
  | .inValue acc key value true, ch :: rest =>
      match unescape ch with
      | some u => readObject (.inValue acc key (value ++ [u]) false) rest
      | none => none
  | .inValue acc key value false, ch :: rest =>
      if ch = '\\' then readObject (.inValue acc key value true) rest
      else if ch = '"' then readObject (.afterValue (acc ++ [(key, String.mk value)])) rest
      else if ch.toNat < 32 then none
      else readObject (.inValue acc key (value ++ [ch]) false) rest
  | .afterValue acc, ch :: rest =>
      if isJSONSpace ch then readObject (.afterValue acc) rest
      else if ch = ',' then readObject (.beforeKey acc false) rest
      else if ch = '\x7d' then readObject (.afterObject acc) rest
      else none
  | .afterObject acc, ch :: rest =>
      if isJSONSpace ch then readObject (.afterObject acc) rest else none

/-- The value of a member of the object a text parses as (the last one when
the name is repeated, as in a Go map); `none` when the text does not parse or
has no such member. -/
def jsonField (text : String) (name : String) : Option String :=
  match readObject .beforeObject text.toList with
  | none => none
  | some members => (members.reverse.find? fun kv => kv.1 = name).map fun kv => kv.2

/-! ## Example sessions used by the concrete checks -/

/-- The identifier of a desktop peer: a well-formed base58 peer identifier
(that of a public bootstrap node). -/
def desktopPeerID : String := "QmaCpDMGvV2BGHeYERUEnRQAwe3N8SzbUtfsmvsqQLuvuJ"

/-- The identifier of another peer, well-formed as well. -/
def otherPeerID : String := "QmNnooDu7bfjPFoTZYxMNLWUQJyrVwtbZg5gBMjTezGAJN"

/-- The address of the comment on `Connect`. -/
def lanAddr : String := "/ip4/192.168.1.100/tcp/4001"

/-- A second address for the desktop peer. -/
def secondAddr : String := "/ip4/10.0.0.7/tcp/4001"

/-- An address nobody answers at (documentation range). -/
def unreachableAddr : String := "/ip4/203.0.113.1/tcp/4001"

/-- The part of the substrate grammar the examples need: `peer.Decode`
accepts the two identifiers above and `multiaddr.NewMultiaddr` the three
addresses above, as the library does; a parsed value is written as its text.
Every other text is refused here. -/
def sampleSubstrate : Substrate where
  peerDecode := fun t =>
    if t = desktopPeerID ∨ t = otherPeerID then .ok t else .error "failed to parse peer ID"
  newMultiaddr := fun t =>
    if t = lanAddr ∨ t = secondAddr ∨ t = unreachableAddr then .ok t
    else .error "failed to parse multiaddr"

/-- A session as `NewClient` returns it. -/
def freshClient : WarpNetClient :=
  { host := { id := "12D3KooWClient", log := [], closed := false }, cancelled := false,
    desktopID := "" }

/-- A session that remembers the desktop peer, reached at its first address. -/
def connectedClient : WarpNetClient :=
  (Connect sampleSubstrate freshClient desktopPeerID lanAddr none).1

/-- A network on which a whole exchange succeeds with the answer `ok`. -/
def goodStream : StreamEnv :=
  { newStream := none, write := none, closeWrite := none, readAll := .ok (bytesOf "ok") }

/-- A construction environment in which key generation and host creation
succeed. -/
def goodConstruct : ConstructEnv where
  generateKeyPair := .ok [1, 2, 3]
  libp2pNew := fun _ => .ok "12D3KooWClient"

/-- A sixteen-byte key, as in `TestInitializeWithInvalidPSK`. -/
def shortKey : List Byte := List.replicate 16 0

/-! ## Lemmas on logs -/

theorem openStreamsFrom_append (i : Nat) (streams : List Nat) (l1 l2 : List HostCall) :
    openStreamsFrom i streams (l1 ++ l2)
      = openStreamsFrom (i + l1.length) (openStreamsFrom i streams l1) l2 := by
  induction l1 generalizing i streams with
  | nil => simp [openStreamsFrom]
  | cons e rest ih =>
      have hlen : i + (rest.length + 1) = i + 1 + rest.length := by omega
      simp only [List.cons_append, openStreamsFrom, List.length_cons, hlen]
      exact ih (i + 1) (streamStep streams i e)

theorem streamStep_bound (streams : List Nat) (i : Nat) (e : HostCall) (x : Nat)
    (hx : x ∈ streamStep streams i e) : x ∈ streams ∨ x = i := by
  cases e with
  | newStream p q o =>
      cases o with
      | true => simpa [streamStep] using hx
      | false => exact Or.inl (by simpa [streamStep] using hx)
  | streamClose s =>
      have h : x ∈ streams ∧ ¬x = s := by simpa [streamStep] using hx
      exact Or.inl h.1
  | _ => exact Or.inl (by simpa [streamStep] using hx)

theorem openStreamsFrom_bound (l : List HostCall) (i : Nat) (streams : List Nat) (x : Nat)
    (hx : x ∈ openStreamsFrom i streams l) : x ∈ streams ∨ (i ≤ x ∧ x < i + l.length) := by
  induction l generalizing i streams with
  | nil => exact Or.inl (by simpa [openStreamsFrom] using hx)
  | cons e rest ih =>
      simp only [openStreamsFrom] at hx
      rcases ih (i + 1) _ hx with h | h
      · rcases streamStep_bound streams i e x h with h1 | h1
        · exact Or.inl h1
        · right
          simp only [List.length_cons]
          omega
      · right
        simp only [List.length_cons]
        omega

theorem openStreams_lt (h : Host) (x : Nat) (hx : x ∈ h.openStreams) : x < h.log.length := by
  rcases openStreamsFrom_bound h.log 0 [] x hx with h1 | h1
  · simp at h1
  · omega

/-- A stream opened at the end of a log, used by calls that open or close no
stream, then closed: the open streams are those of before. -/
theorem openStreams_open_close (h : Host) (d p : String) (mid : List HostCall)
    (hmid : ∀ i streams, openStreamsFrom i streams mid = streams) :
    openStreamsFrom 0 [] (h.log ++ [HostCall.newStream d p true] ++ mid
        ++ [HostCall.streamClose h.log.length]) = h.openStreams := by
  rw [openStreamsFrom_append, openStreamsFrom_append, openStreamsFrom_append, hmid]
  simp only [openStreamsFrom, streamStep, Nat.zero_add]
  rw [List.filter_append]
  have h1 : List.filter (fun x => decide (x ≠ h.log.length)) (openStreamsFrom 0 [] h.log)
      = openStreamsFrom 0 [] h.log := by
    apply List.filter_eq_self.mpr
    intro x hx
    have := openStreams_lt h x hx
    simp
    omega
  rw [h1]
  simp [Host.openStreams]

/-- The log of a host after `exchange`: the calls on the stream, none of which
opens or closes a stream. -/
theorem exchange_log (h : Host) (stream : Nat) (data : List Byte) (net : StreamEnv) :
    ∃ mid, (exchange h stream data net).1.log = h.log ++ mid
      ∧ ∀ i streams, openStreamsFrom i streams mid = streams := by
  unfold exchange
  cases net.write with
  | some e => exact ⟨[.streamSetDeadline stream, .streamWrite stream data], by simp [Host.call], by
      intro i streams; rfl⟩
  | none =>
      cases net.closeWrite with
      | some e =>
          exact ⟨[.streamSetDeadline stream, .streamWrite stream data, .streamCloseWrite stream],
            by simp [Host.call], by intro i streams; rfl⟩
      | none =>
          cases net.readAll with
          | error e =>
              exact ⟨[.streamSetDeadline stream, .streamWrite stream data,
                .streamCloseWrite stream, .streamRead stream], by simp [Host.call], by
                  intro i streams; rfl⟩
          | ok r =>
              exact ⟨[.streamSetDeadline stream, .streamWrite stream data,
                .streamCloseWrite stream, .streamRead stream], by simp [Host.call], by
                  intro i streams; rfl⟩

/-! ## The session: `SendMessage` -/

/-- C1: on a session whose remembered peer identifier is empty, `SendMessage`
returns no response and the error `not connected to desktop node`, for every
protocol label, payload and network behaviour, and leaves the session and its
host as they were: no call is made on the network adapter. -/
theorem sendMessage_not_connected (c : WarpNetClient) (protocolID : String) (data : List Byte)
    (net : StreamEnv) (h : c.desktopID = "") :
    SendMessage c protocolID data net = (c, .error "not connected to desktop node")
      ∧ (SendMessage c protocolID data net).1.host.log = c.host.log := by
  simp [SendMessage, h]

theorem sendMessage_not_connected_witness :
    freshClient.desktopID = ""
      ∧ SendMessage freshClient "/test/protocol" (bytesOf "test") goodStream
          = (freshClient, .error "not connected to desktop node")
      ∧ (SendMessage freshClient "/test/protocol" (bytesOf "test") goodStream).1.host.log
          = freshClient.host.log :=
  ⟨rfl, sendMessage_not_connected freshClient "/test/protocol" (bytesOf "test") goodStream rfl⟩

/-- C2: when `SendMessage` opens its stream (a peer is remembered and
`NewStream` succeeds), then whatever happens afterwards (write failure,
half-close failure, read failure, success) the log of the host shows the stream
opened at the position that names it and ends with the `Close` of that stream;
the streams open on return are exactly those open before the call, and the
stream of this call is not among them. -/
theorem sendMessage_closes_stream (c : WarpNetClient) (protocolID : String) (data : List Byte)
    (net : StreamEnv) (hpeer : c.desktopID ≠ "") (hopen : net.newStream = none) :
    (SendMessage c protocolID data net).1.host.log.get? c.host.log.length
        = some (HostCall.newStream c.desktopID protocolID true)
      ∧ (SendMessage c protocolID data net).1.host.log.getLast?
        = some (HostCall.streamClose c.host.log.length)
      ∧ (SendMessage c protocolID data net).1.host.openStreams = c.host.openStreams
      ∧ c.host.log.length ∉ (SendMessage c protocolID data net).1.host.openStreams := by
  obtain ⟨mid, hlog, hmid⟩ := exchange_log
    (c.host.call (.newStream c.desktopID protocolID true)) c.host.log.length data net
  have hfull : (SendMessage c protocolID data net).1.host.log
      = c.host.log ++ [HostCall.newStream c.desktopID protocolID true] ++ mid
          ++ [HostCall.streamClose c.host.log.length] := by
    have hlog1 := hlog
    simp only [Host.call] at hlog1
    simp only [SendMessage, hpeer, hopen, if_false, Host.call, hlog1]
  have hstreams : (SendMessage c protocolID data net).1.host.openStreams = c.host.openStreams := by
    rw [Host.openStreams, hfull]
    exact openStreams_open_close c.host c.desktopID protocolID mid hmid
  refine ⟨?_, ?_, hstreams, ?_⟩
  · rw [hfull, List.get?_eq_getElem?, List.append_assoc, List.append_assoc,
      List.getElem?_append_right (Nat.le_refl _)]
    simp
  · rw [hfull, List.getLast?_append]
    simp
  · rw [hstreams]
    intro hmem
    exact Nat.lt_irrefl _ (openStreams_lt c.host _ hmem)

theorem sendMessage_closes_stream_witness :
    connectedClient.desktopID ≠ "" ∧ goodStream.newStream = none
      ∧ (SendMessage connectedClient "/warpnet/api/feed/1.0.0" (bytesOf "ping")
            { goodStream with readAll := .error "deadline exceeded" }).1.host.log.getLast?
          = some (HostCall.streamClose 2) :=
  ⟨by decide, rfl,
    (sendMessage_closes_stream connectedClient "/warpnet/api/feed/1.0.0" (bytesOf "ping")
      { goodStream with readAll := .error "deadline exceeded" } (by decide) rfl).2.1⟩

/-! ## The session: `Connect` -/

/-- C3, counterexample: a session remembers the desktop peer, for which the
second address is not known.  `Connect` to the same peer at the second address
fails at the dial and returns an error, the remembered peer identifier is the
same, yet the Peer Reference is no longer what it was: the second address is
now known for the remembered peer, recorded before the dial. -/
theorem connect_failure_records_address :
    connectedClient.desktopID = desktopPeerID
      ∧ connectedClient.host.knowsAddr connectedClient.desktopID secondAddr = false
      ∧ (Connect sampleSubstrate connectedClient desktopPeerID secondAddr
          (some "dial timeout")).2 = some "connection failed: dial timeout"
      ∧ (Connect sampleSubstrate connectedClient desktopPeerID secondAddr
          (some "dial timeout")).1.desktopID = desktopPeerID
      ∧ (Connect sampleSubstrate connectedClient desktopPeerID secondAddr
          (some "dial timeout")).1.host.knowsAddr desktopPeerID secondAddr = true := by
  refine ⟨?_, ?_, ?_, ?_, ?_⟩ <;> decide

/-- C3, amended: when `Connect` returns an error, the remembered peer
identifier (and the cancellation flag and the host identity) is what it was
before the call.  When the peer id or the address does not parse, the whole
session, address book included, is untouched.  When both parse, so that the
failure is the dial, the address book knows what it knew before and, in
addition, the parsed address for the parsed peer. -/
theorem connect_failure_keeps_peer (lib : Substrate) (c : WarpNetClient)
    (peerIDStr addrStr : String) (dial : Option String) (e : String)
    (herr : (Connect lib c peerIDStr addrStr dial).2 = some e) :
    (Connect lib c peerIDStr addrStr dial).1.desktopID = c.desktopID
      ∧ (Connect lib c peerIDStr addrStr dial).1.cancelled = c.cancelled
      ∧ (Connect lib c peerIDStr addrStr dial).1.host.id = c.host.id
      ∧ (((∀ pid, lib.peerDecode peerIDStr ≠ .ok pid) ∨ (∀ m, lib.newMultiaddr addrStr ≠ .ok m)) →
          (Connect lib c peerIDStr addrStr dial).1 = c)
      ∧ (∀ pid maddr, lib.peerDecode peerIDStr = .ok pid → lib.newMultiaddr addrStr = .ok maddr →
          ∀ p a, ((Connect lib c peerIDStr addrStr dial).1.host.knowsAddr p a = true
            ↔ (c.host.knowsAddr p a = true ∨ (p = pid ∧ a = maddr)))) := by
  unfold Connect at herr ⊢
  cases hd : lib.peerDecode peerIDStr with
  | error e1 => simp
  | ok pid =>
      cases hm : lib.newMultiaddr addrStr with
      | error e2 => simp
      | ok maddr =>
          cases dial with
          | none => simp [hd, hm] at herr
          | some e3 => simp [Host.call, Host.knowsAddr]

theorem connect_failure_keeps_peer_witness :
    (Connect sampleSubstrate connectedClient otherPeerID secondAddr
        (some "dial timeout")).2 = some "connection failed: dial timeout"
      ∧ (Connect sampleSubstrate connectedClient otherPeerID secondAddr
        (some "dial timeout")).1.desktopID = desktopPeerID :=
  ⟨by decide,
    (connect_failure_keeps_peer sampleSubstrate connectedClient otherPeerID secondAddr
      (some "dial timeout") "connection failed: dial timeout" (by decide)).1⟩

/-! ## The session: `Close` -/

/-- C4: `Close` is idempotent.  For every session and whatever the first
`Close` returned, a second `Close` returns success and is a no-op: the session
it leaves is the one the first `Close` left (cancelled, host shut down), and
the host has carried out no further shutdown. -/
theorem close_idempotent (c : WarpNetClient) (first second : Option String) :
    Close (Close c first).1 second = ((Close c first).1, none)
      ∧ (Close c first).1.cancelled = true
      ∧ (Close c first).1.host.closed = true
      ∧ (Close (Close c first).1 second).1.host.log = (Close c first).1.host.log := by
  cases hc : c.host.closed <;> simp [Close, Host.Close, hc]

/-! ## The session: `IsConnected` and `Disconnect` -/

/-- An operation other than a `Connect` that succeeds keeps an empty remembered
peer empty. -/
theorem apply_keeps_no_peer (lib : Substrate) (c : WarpNetClient) (op : Op)
    (hc : c.desktopID = "") (hop : op.connectSucceeds lib c = false) :
    (op.apply lib c).desktopID = "" := by
  cases op with
  | connect p a dial =>
      simp only [Op.connectSucceeds, Op.apply] at hop ⊢
      unfold Connect at hop ⊢
      cases hd : lib.peerDecode p with
      | error e1 => simpa using hc
      | ok pid =>
          cases hm : lib.newMultiaddr a with
          | error e2 => simpa using hc
          | ok maddr =>
              cases dial with
              | none => simp [hd, hm] at hop
              | some e3 => simpa using hc
  | sendMessage p d net => simp [Op.apply, SendMessage, hc]
  | isConnected f => simpa [Op.apply] using hc
  | disconnect cp => simp [Op.apply, Disconnect, hc]

theorem runOps_keeps_no_peer (lib : Substrate) (ops : List Op) (c : WarpNetClient)
    (hc : c.desktopID = "") (hops : noConnectSucceeds lib c ops = true) :
    (runOps lib c ops).desktopID = "" := by
  induction ops generalizing c with
  | nil => simpa [runOps] using hc
  | cons op rest ih =>
      simp only [noConnectSucceeds, Bool.and_eq_true, Bool.not_eq_true'] at hops
      exact ih _ (apply_keeps_no_peer lib c op hc hops.1) hops.2

/-- C5: a session returned by `NewClient` remembers no peer, and after every
sequence of `Connect`, `SendMessage`, `IsConnected` and `Disconnect` calls in
which no `Connect` succeeds it still remembers none and `IsConnected` returns
`false`, whatever connectedness the host reports and whatever the network
answered along the way. -/
theorem isConnected_false_until_connect (env : ConstructEnv) (psk : Option (List Byte))
    (lib : Substrate) (c : WarpNetClient) (ops : List Op)
    (connectedness : String → Connectedness)
    (hnew : NewClient env psk = .ok c) (hops : noConnectSucceeds lib c ops = true) :
    IsConnected c connectedness = false
      ∧ (runOps lib c ops).desktopID = ""
      ∧ IsConnected (runOps lib c ops) connectedness = false := by
  have hc : c.desktopID = "" := by
    unfold NewClient at hnew
    cases hk : env.generateKeyPair with
    | error e => simp [hk] at hnew
    | ok key =>
        simp only [hk] at hnew
        split at hnew
        · simp at hnew
        · split at hnew
          · simp at hnew
          · simp only [Except.ok.injEq] at hnew
            rw [← hnew]
  have hrun := runOps_keeps_no_peer lib ops c hc hops
  exact ⟨by simp [IsConnected, hc], hrun, by simp [IsConnected, hrun]⟩

theorem isConnected_false_until_connect_witness :
    NewClient goodConstruct none = .ok freshClient
      ∧ noConnectSucceeds sampleSubstrate freshClient
          [.connect desktopPeerID unreachableAddr (some "dial timeout"),
           .sendMessage "/test/protocol" [] goodStream, .disconnect none] = true
      ∧ IsConnected (runOps sampleSubstrate freshClient
          [.connect desktopPeerID unreachableAddr (some "dial timeout"),
           .sendMessage "/test/protocol" [] goodStream, .disconnect none])
          (fun _ => Connectedness.Connected) = false :=
  ⟨rfl, by decide,
    (isConnected_false_until_connect goodConstruct none sampleSubstrate freshClient
      [.connect desktopPeerID unreachableAddr (some "dial timeout"),
       .sendMessage "/test/protocol" [] goodStream, .disconnect none]
      (fun _ => Connectedness.Connected) rfl (by decide)).2.2⟩

/-- C6: `Disconnect` on a session with no peer returns success and leaves the
session, host included, unchanged (no call on the adapter).  With a peer set it
calls `ClosePeer` for that peer; when the close succeeds it returns success
with the peer identifier cleared, and when the close fails it returns the
error `failed to close peer connection: ...` with the peer identifier still
the same peer. -/
theorem disconnect_clears_only_on_success (c : WarpNetClient) (e : String) :
    (c.desktopID = "" → ∀ closePeer, Disconnect c closePeer = (c, none))
      ∧ (c.desktopID ≠ "" →
          Disconnect c none
            = ({ c with host := c.host.call (.closePeer c.desktopID), desktopID := "" }, none)
          ∧ Disconnect c (some e)
            = ({ c with host := c.host.call (.closePeer c.desktopID) },
                some ("failed to close peer connection: " ++ e))
          ∧ (Disconnect c (some e)).1.desktopID = c.desktopID) := by
  refine ⟨?_, ?_⟩
  · intro h closePeer
    simp [Disconnect, h]
  · intro h
    simp [Disconnect, h]

theorem disconnect_clears_only_on_success_witness :
    Disconnect freshClient (some "x") = (freshClient, none)
      ∧ (Disconnect connectedClient none).1.desktopID = ""
      ∧ (Disconnect connectedClient (some "busy")).2
          = some "failed to close peer connection: busy"
      ∧ (Disconnect connectedClient (some "busy")).1.desktopID = desktopPeerID :=
  ⟨(disconnect_clears_only_on_success freshClient "busy").1 rfl (some "x"),
    by rw [((disconnect_clears_only_on_success connectedClient "busy").2 (by decide)).1],
    by rw [((disconnect_clears_only_on_success connectedClient "busy").2 (by decide)).2.1]; rfl,
    ((disconnect_clears_only_on_success connectedClient "busy").2 (by decide)).2.2⟩

/-! ## Base64: decoding what was encoded -/

theorem decodeMap_encodeStd (i : Nat) (hi : i < 64) : decodeMap (encodeStd i) = some i := by
  have h : ∀ j : Fin 64, decodeMap (encodeStd j.val) = some j.val := by decide
  exact h ⟨i, hi⟩

theorem decodeMap_padChar : decodeMap padChar = none := by decide

theorem isNewline_padChar : isNewline padChar = false := by decide

theorem quantumBytes_group (b0 b1 b2 : Byte) :
    quantumBytes
      [(b0.val * 65536 + b1.val * 256 + b2.val) / 262144 % 64,
       (b0.val * 65536 + b1.val * 256 + b2.val) / 4096 % 64,
       (b0.val * 65536 + b1.val * 256 + b2.val) / 64 % 64,
       (b0.val * 65536 + b1.val * 256 + b2.val) % 64] 4 = [b0, b1, b2] := by
  have h0 := b0.isLt
  have h1 := b1.isLt
  have h2 := b2.isLt
  simp only [quantumBytes, List.getD_cons_zero, List.getD_cons_succ, toByte]
  simp only [List.take, List.cons.injEq, and_true]
  refine ⟨?_, ?_, ?_⟩ <;> apply Fin.ext <;> simp only <;> omega

theorem sixbit_lt (v d : Nat) : v / d % 64 < 64 := Nat.mod_lt _ (by decide)

theorem decodeFrom_group (b0 b1 b2 : Byte) (rest : List Byte) (si : Nat) (out : List Byte) :
    decodeFrom 0 [] (encodeGroup b0.val b1.val b2.val ++ rest) si out
      = decodeFrom 0 [] rest (si + 1 + 1 + 1 + 1) (out ++ [b0, b1, b2]) := by
  simp only [encodeGroup, List.cons_append, List.nil_append, decodeFrom,
    decodeMap_encodeStd _ (sixbit_lt _ _), decodeMap_encodeStd _ (Nat.mod_lt _ (by decide : 0 < 64))]
  simp only [List.nil_append, List.cons_append, quantumBytes_group]
  simp

theorem quantumBytes_one (b0 : Byte) :
    quantumBytes [b0.val * 65536 / 262144 % 64, b0.val * 65536 / 4096 % 64] 2 = [b0] := by
  have h0 := b0.isLt
  simp only [quantumBytes, List.getD_cons_zero, List.getD_cons_succ, List.getD_nil, toByte]
  simp only [List.take, List.cons.injEq, and_true]
  apply Fin.ext
  simp only
  omega

theorem quantumBytes_two (b0 b1 : Byte) :
    quantumBytes
      [(b0.val * 65536 + b1.val * 256) / 262144 % 64,
       (b0.val * 65536 + b1.val * 256) / 4096 % 64,
       (b0.val * 65536 + b1.val * 256) / 64 % 64] 3 = [b0, b1] := by
  have h0 := b0.isLt
  have h1 := b1.isLt
  simp only [quantumBytes, List.getD_cons_zero, List.getD_cons_succ, List.getD_nil, toByte]
  simp only [List.take, List.cons.injEq, and_true]
  refine ⟨?_, ?_⟩ <;> apply Fin.ext <;> simp only <;> omega

/-- Decoding the encoding of `k` gives `k` back, with no error. -/
theorem decodeFrom_encode (k : List Byte) : ∀ (si : Nat) (out : List Byte),
    decodeFrom 0 [] (EncodeToString k) si out = (out ++ k, none) := by
  induction k using EncodeToString.induct with
  | case1 => intro si out; simp [EncodeToString, decodeFrom]
  | case2 b0 =>
      intro si out
      simp only [EncodeToString, decodeFrom, decodeMap_encodeStd _ (sixbit_lt _ _),
        decodeMap_padChar]
      simp [isNewline_padChar, skipNewlines, padTail, quantumBytes_one]
  | case3 b0 b1 =>
      intro si out
      simp only [EncodeToString, decodeFrom, decodeMap_encodeStd _ (sixbit_lt _ _),
        decodeMap_padChar]
      simp [isNewline_padChar, skipNewlines, padTail, quantumBytes_two]
  | case4 b0 b1 b2 rest ih =>
      intro si out
      rw [EncodeToString, decodeFrom_group, ih]
      simp

theorem decodeString_encode (k : List Byte) : DecodeString (EncodeToString k) = (k, none) := by
  simpa [DecodeString] using decodeFrom_encode k 0 []

theorem encode_ne_nil (k : List Byte) (hk : k ≠ []) : EncodeToString k ≠ [] := by
  match k, hk with
  | [_], _ => simp [EncodeToString]
  | [_, _], _ => simp [EncodeToString]
  | _ :: _ :: _ :: _, _ => simp [EncodeToString, encodeGroup]

/-- C7, counterexample: the empty byte sequence has a length other than 32,
its standard base64 encoding is the empty string, and `Initialize` applied to
it takes the "no PSK" path: it creates a session and returns success, not the
length error. -/
theorem initialize_empty_key_creates_session :
    ([] : List Byte).length ≠ 32
      ∧ EncodeToString [] = []
      ∧ Initialize goodConstruct none (EncodeToString []) = (some freshClient, "")
      ∧ (Initialize goodConstruct none (EncodeToString [])).2 ≠ "PSK must be exactly 32 bytes" := by
  refine ⟨by decide, rfl, rfl, by decide⟩

/-- C7, amended: for every non-empty byte sequence `k` whose length is not 32,
`Initialize` applied to the standard base64 encoding of `k` returns exactly
`PSK must be exactly 32 bytes` and leaves the session reference of the facade
as it was, whatever key generation and host construction would have answered:
no session is created. -/
theorem initialize_wrong_length (env : ConstructEnv) (clientInstance : Option WarpNetClient)
    (k : List Byte) (hne : k ≠ []) (hlen : k.length ≠ 32) :
    Initialize env clientInstance (EncodeToString k)
      = (clientInstance, "PSK must be exactly 32 bytes") := by
  simp [Initialize, encode_ne_nil k hne, decodeString_encode, hlen]

theorem initialize_wrong_length_witness :
    shortKey ≠ [] ∧ shortKey.length ≠ 32
      ∧ Initialize goodConstruct none (EncodeToString shortKey)
          = (none, "PSK must be exactly 32 bytes") :=
  ⟨by decide, by decide, initialize_wrong_length goodConstruct none shortKey (by decide) (by decide)⟩

/-- C9, counterexample: when the shutdown of the host reports an error,
`Shutdown` returns the `shutdown failed` string and the facade still holds the
session; a later `Shutdown` is then not a no-op, it closes that session
again. -/
theorem shutdown_failure_keeps_session :
    Shutdown (some freshClient) (some "host busy")
        = (some (Close freshClient (some "host busy")).1, "shutdown failed: host busy")
      ∧ (Shutdown (some freshClient) (some "host busy")).1 ≠ none
      ∧ Shutdown (Shutdown (some freshClient) (some "host busy")).1 (some "host busy")
          ≠ ((Shutdown (some freshClient) (some "host busy")).1, "") := by
  refine ⟨?_, ?_, ?_⟩ <;> decide

/-- C9, amended: after a `Shutdown` that returns the empty string the facade
holds no session, and every later `Shutdown` is a no-op returning the empty
string; a `Shutdown` whose `Close` fails returns `shutdown failed: ...` and
leaves the facade holding the session, closed.  `Close` fails when the host,
not shut down before, reports an error for its shutdown. -/
theorem shutdown_clears_on_success (clientInstance : Option WarpNetClient)
    (hostClose later : Option String) :
    ((Shutdown clientInstance hostClose).2 = "" →
        (Shutdown clientInstance hostClose).1 = none
          ∧ Shutdown (Shutdown clientInstance hostClose).1 later = (none, ""))
      ∧ (∀ c, clientInstance = some c → hostClose = none →
          Shutdown clientInstance hostClose = (none, ""))
      ∧ (∀ c e, clientInstance = some c → (Close c hostClose).2 = some e →
          Shutdown clientInstance hostClose
            = (some (Close c hostClose).1, "shutdown failed: " ++ e))
      ∧ (∀ c e, clientInstance = some c → c.host.closed = false → hostClose = some e →
          Shutdown clientInstance hostClose
            = (some (Close c (some e)).1, "shutdown failed: " ++ e)) := by
  have hfail : ∀ (c : WarpNetClient) (r : Option String) (e : String),
      (Close c r).2 = some e →
        Shutdown (some c) r = (some (Close c r).1, "shutdown failed: " ++ e) := by
    intro c r e hce
    simp only [Shutdown]
    rcases hpair : Close c r with ⟨c1, res⟩
    rw [hpair] at hce
    simp only at hce
    subst hce
    rfl
  have hok : ∀ (c : WarpNetClient) (r : Option String),
      (Close c r).2 = none → Shutdown (some c) r = (none, "") := by
    intro c r hce
    simp only [Shutdown]
    rcases hpair : Close c r with ⟨c1, res⟩
    rw [hpair] at hce
    simp only at hce
    subst hce
    rfl
  refine ⟨?_, ?_, ?_, ?_⟩
  · intro hres
    cases clientInstance with
    | none => simp [Shutdown]
    | some c =>
        cases hce : (Close c hostClose).2 with
        | none =>
            rw [hok c hostClose hce]
            exact ⟨rfl, rfl⟩
        | some e =>
            exfalso
            rw [hfail c hostClose e hce] at hres
            have hdata := congrArg String.data hres
            simp [String.data_append] at hdata
  · intro c hc hh
    subst hc hh
    apply hok
    cases hcl : c.host.closed <;> simp [Close, Host.Close, hcl]
  · intro c e hc hce
    subst hc
    exact hfail c hostClose e hce
  · intro c e hc hcl hh
    subst hc hh
    apply hfail
    simp [Close, Host.Close, hcl]

theorem shutdown_clears_on_success_witness :
    (Shutdown (some connectedClient) none).2 = ""
      ∧ (Shutdown (some connectedClient) none).1 = none
      ∧ Shutdown (Shutdown (some connectedClient) none).1 (some "host busy") = (none, "") :=
  ⟨by decide,
    (shutdown_clears_on_success (some connectedClient) none (some "host busy")).1 (by decide)⟩

/-- C10: when the facade holds no session, for all arguments and whatever the
network would answer, `ConnectToNode` returns `client not initialized`,
`SendRequest` returns a text that parses as a JSON object whose `error` member
is `client not initialized`, `GetClientPeerID` returns the empty string,
`CheckConnection` returns `false`, `DisconnectFromNode` and `Shutdown` return
the empty string; each of them leaves the facade without a session. -/
theorem facade_guards_without_session (lib : Substrate) (json : JSONLib)
    (peerID address protocolID : String) (dataJSON : List Byte) (dial closePeer hostClose : Option String)
    (net : StreamEnv) (connectedness : String → Connectedness) :
    ConnectToNode lib none peerID address dial = (none, "client not initialized")
      ∧ (SendRequest json none protocolID dataJSON net).1 = none
      ∧ jsonField (SendRequest json none protocolID dataJSON net).2 "error"
          = some "client not initialized"
      ∧ GetClientPeerID none = ""
      ∧ CheckConnection none connectedness = "false"
      ∧ DisconnectFromNode none closePeer = (none, "")
      ∧ Shutdown none hostClose = (none, "") := by
  refine ⟨rfl, rfl, ?_, rfl, rfl, rfl, rfl⟩
  show jsonField "\x7b\"error\": \"client not initialized\"\x7d" "error" = _
  decide

end WarpNet
